import Mathlib

/-!
Shallow embedding of `videosys/pipelines/open_sora/data_process.py`.

Conventions used throughout this development:
* Python machine floats are idealized as exact rationals (`ℚ`); Python `round`
  is banker's rounding (round half to even), embedded as `pyround`.
* Python ints are `ℤ`/`ℕ`; Python `//` on ints is floor division (`Int.fdiv`).
* Fallible Python code (KeyError, ValueError, failing assert) returns
  `Option`/`Except`.
* The PIL / torchvision resampling kernels (bicubic, box, bilinear) are
  external library collaborators: functions that consume them take the
  resampler as an explicit argument, constrained only by its shape contract
  where a theorem needs it.
-/

/-- Python `round` on an exact rational: round half to even (banker's rounding).
`Rat.floor` is used so that the definition evaluates inside the kernel. -/
def pyround (q : ℚ) : ℤ :=
  let f := q.floor
  let r := q - (f : ℚ)
  if r < 1/2 then f
  else if 1/2 < r then f + 1
  else if f % 2 = 0 then f else f + 1

lemma ratFloor_eq (q : ℚ) : q.floor = ⌊q⌋ := by
  rw [Rat.floor_def', Rat.floor_def]

lemma floor_le_pyround (q : ℚ) : ⌊q⌋ ≤ pyround q := by
  unfold pyround
  dsimp only
  rw [ratFloor_eq]
  split_ifs <;> omega

lemma pyround_le_ceil (q : ℚ) : pyround q ≤ ⌈q⌉ := by
  unfold pyround
  dsimp only
  rw [ratFloor_eq]
  have hfc : ⌊q⌋ ≤ ⌈q⌉ := Int.floor_le_ceil q
  have hlt : ¬ q - (⌊q⌋ : ℚ) < 1/2 → ⌊q⌋ + 1 ≤ ⌈q⌉ := by
    intro h
    have h0 : (⌊q⌋ : ℚ) < q := by
      have : (0:ℚ) < q - (⌊q⌋ : ℚ) := by

        by_contra hc
        push_neg at hc
        exact h (lt_of_le_of_lt hc (by norm_num))
      linarith
    exact Int.add_one_le_iff.mpr (Int.lt_ceil.mpr h0)
  split_ifs with h1 h2 h3
  · exact hfc
  · exact hlt (by intro hc; exact absurd hc h1)
  · exact hfc
  · exact hlt h1

lemma le_pyround_of_le (n : ℤ) (q : ℚ) (h : (n : ℚ) ≤ q) : n ≤ pyround q :=
  le_trans (Int.le_floor.mpr h) (floor_le_pyround q)

lemma pyround_intCast (n : ℤ) : pyround (n : ℚ) = n := by
  unfold pyround
  rw [ratFloor_eq]
  simp [Int.floor_intCast]

lemma pyround_natCast (n : ℕ) : pyround (n : ℚ) = n := by
  have := pyround_intCast (n : ℤ)
  simpa using this

lemma pyround_nonneg (q : ℚ) (h : 0 ≤ q) : 0 ≤ pyround q :=
  le_pyround_of_le 0 q (by exact_mod_cast h)

lemma pyround_half_le (d : ℤ) (hd : 0 ≤ d) : pyround ((d : ℚ) / 2) ≤ d := by
  refine le_trans (pyround_le_ceil _) ?_
  rw [Int.ceil_le]
  have hq : (0 : ℚ) ≤ (d : ℚ) := by exact_mod_cast hd
  linarith

lemma pyround_half_nonneg (d : ℤ) (hd : 0 ≤ d) : 0 ≤ pyround ((d : ℚ) / 2) := by
  apply pyround_nonneg
  positivity

/-- Python `abs` on rationals (kernel-evaluable form of `|·|`). -/
def absQ (q : ℚ) : ℚ := if q < 0 then -q else q

lemma absQ_eq_abs (q : ℚ) : absQ q = |q| := by
  unfold absQ
  split_ifs with h
  · exact (abs_of_neg h).symm
  · exact (abs_of_nonneg (not_lt.mp h)).symm

/-- Python `max` on two rationals (returns the first argument on equality). -/
def maxQ (a b : ℚ) : ℚ := if a < b then b else a

/-- Python `min` on two rationals (returns the first argument on equality). -/
def minQ (a b : ℚ) : ℚ := if b < a then b else a

/-- Split a character list at the first decimal point, when present. -/
def splitDot : List Char → List Char × Option (List Char)
  | [] => ([], none)
  | ch :: rest =>
    if ch == '.' then ([], some rest)
    else
      let p := splitDot rest
      (ch :: p.1, p.2)

/-- Value of a nonempty all-digit character list, else `none`. -/
def digitsToNat (l : List Char) : Option ℕ :=
  if l ≠ [] ∧ l.all (fun ch => ch.isDigit) then
    some (l.foldl (fun acc ch => 10 * acc + (ch.toNat - 48)) 0)
  else none

/-- Python `float(s)` restricted to the nonnegative decimal literals that occur
as aspect-ratio table keys (digits, optionally one decimal point). The result
is idealized as the exact decimal rational; binary64 rounding of non-dyadic
decimals is not modelled, so statements meant to transfer to the running
program should only evaluate this on literals whose value is exactly
representable in binary64 (as the C4 counterexample does). -/
def parseDecimal (s : String) : Option ℚ :=
  match splitDot s.toList with
  | (a, none) => (digitsToNat a).map (fun n => (n : ℚ))
  | (a, some b) =>
    match digitsToNat a, digitsToNat b with
    | some n, some m => some ((n : ℚ) + (m : ℚ) / (10 : ℚ) ^ b.length)
    | _, _ => none

/-- Numeric value of a ratio key, as `get_closest_ratio` computes it via
`float` (exact-rational idealization; see `parseDecimal`). -/
def key_val (k : String) : ℚ := (parseDecimal k).getD 0

/-- A resolution-tier ratio table: quantized-ratio key -> (height, width). -/
abbrev RTable := List (String × ℕ × ℕ)
/-- Label -> quantized-key table (H:W), from ASPECT_RATIO_MAP in data_process.py. -/
def ASPECT_RATIO_MAP : List (String × String) := [
  ("3:8", "0.38"), ("9:21", "0.43"), ("12:25", "0.48"), ("1:2", "0.50"), ("9:17", "0.53"), ("27:50", "0.54"), ("9:16", "0.56"), ("5:8", "0.62"), ("2:3", "0.67"), ("3:4", "0.75"), ("1:1", "1.00"), ("4:3", "1.33"), ("3:2", "1.50"), ("16:9", "1.78"), ("17:9", "1.89"), ("2:1", "2.00"), ("50:27", "2.08")]

/-- Transcribed from ASPECT_RATIO_4K in data_process.py (insertion order preserved). -/
def ASPECT_RATIO_4K : RTable := [
  ("0.38", 1764, 4704), ("0.43", 1886, 4400), ("0.48", 1996, 4158), ("0.50", 2036, 4072),
  ("0.53", 2096, 3960), ("0.54", 2118, 3918), ("0.62", 2276, 3642), ("0.56", 2160, 3840),
  ("0.67", 2352, 3528), ("0.75", 2494, 3326), ("1.00", 2880, 2880), ("1.33", 3326, 2494),
  ("1.50", 3528, 2352), ("1.78", 3840, 2160), ("1.89", 3958, 2096), ("2.00", 4072, 2036),
  ("2.08", 4156, 1994)]

/-- Transcribed from ASPECT_RATIO_2K in data_process.py (insertion order preserved). -/
def ASPECT_RATIO_2K : RTable := [
  ("0.38", 1176, 3136), ("0.43", 1256, 2930), ("0.48", 1330, 2770), ("0.50", 1358, 2716),
  ("0.53", 1398, 2640), ("0.54", 1412, 2612), ("0.56", 1440, 2560), ("0.62", 1518, 2428),
  ("0.67", 1568, 2352), ("0.75", 1662, 2216), ("1.00", 1920, 1920), ("1.33", 2218, 1664),
  ("1.50", 2352, 1568), ("1.78", 2560, 1440), ("1.89", 2638, 1396), ("2.00", 2716, 1358),
  ("2.08", 2772, 1330)]

/-- Transcribed from ASPECT_RATIO_1080P in data_process.py (insertion order preserved). -/
def ASPECT_RATIO_1080P : RTable := [
  ("0.38", 882, 2352), ("0.43", 942, 2198), ("0.48", 998, 2080), ("0.50", 1018, 2036),
  ("0.53", 1048, 1980), ("0.54", 1058, 1958), ("0.56", 1080, 1920), ("0.62", 1138, 1820),
  ("0.67", 1176, 1764), ("0.75", 1248, 1664), ("1.00", 1440, 1440), ("1.33", 1662, 1246),
  ("1.50", 1764, 1176), ("1.78", 1920, 1080), ("1.89", 1980, 1048), ("2.00", 2036, 1018),
  ("2.08", 2078, 998)]

/-- Transcribed from ASPECT_RATIO_720P in data_process.py (insertion order preserved). -/
def ASPECT_RATIO_720P : RTable := [
  ("0.38", 588, 1568), ("0.43", 628, 1466), ("0.48", 666, 1388), ("0.50", 678, 1356),
  ("0.53", 698, 1318), ("0.54", 706, 1306), ("0.56", 720, 1280), ("0.62", 758, 1212),
  ("0.67", 784, 1176), ("0.75", 832, 1110), ("1.00", 960, 960), ("1.33", 1108, 832),
  ("1.50", 1176, 784), ("1.78", 1280, 720), ("1.89", 1320, 698), ("2.00", 1358, 680),
  ("2.08", 1386, 666)]

/-- Transcribed from ASPECT_RATIO_480P in data_process.py (insertion order preserved). -/
def ASPECT_RATIO_480P : RTable := [
  ("0.38", 392, 1046), ("0.43", 420, 980), ("0.48", 444, 925), ("0.50", 452, 904),
  ("0.53", 466, 880), ("0.54", 470, 870), ("0.56", 480, 854), ("0.62", 506, 810),
  ("0.67", 522, 784), ("0.75", 554, 738), ("1.00", 640, 640), ("1.33", 740, 555),
  ("1.50", 784, 522), ("1.78", 854, 480), ("1.89", 880, 466), ("2.00", 906, 454),
  ("2.08", 924, 444)]

/-- Transcribed from ASPECT_RATIO_360P in data_process.py (insertion order preserved). -/
def ASPECT_RATIO_360P : RTable := [
  ("0.38", 294, 784), ("0.43", 314, 732), ("0.48", 332, 692), ("0.50", 340, 680),
  ("0.53", 350, 662), ("0.54", 352, 652), ("0.56", 360, 640), ("0.62", 380, 608),
  ("0.67", 392, 588), ("0.75", 416, 554), ("1.00", 480, 480), ("1.33", 554, 416),
  ("1.50", 588, 392), ("1.78", 640, 360), ("1.89", 660, 350), ("2.00", 678, 340),
  ("2.08", 692, 332)]

/-- Transcribed from ASPECT_RATIO_240P in data_process.py (insertion order preserved). -/
def ASPECT_RATIO_240P : RTable := [
  ("0.38", 196, 522), ("0.43", 210, 490), ("0.48", 222, 462), ("0.50", 226, 452),
  ("0.53", 232, 438), ("0.54", 236, 436), ("0.56", 240, 426), ("0.62", 252, 404),
  ("0.67", 262, 393), ("0.75", 276, 368), ("1.00", 320, 320), ("1.33", 370, 278),
  ("1.50", 392, 262), ("1.78", 426, 240), ("1.89", 440, 232), ("2.00", 452, 226),
  ("2.08", 462, 222)]

/-- Transcribed from ASPECT_RATIO_144P in data_process.py (insertion order preserved). -/
def ASPECT_RATIO_144P : RTable := [
  ("0.38", 117, 312), ("0.43", 125, 291), ("0.48", 133, 277), ("0.50", 135, 270),
  ("0.53", 139, 262), ("0.54", 141, 260), ("0.56", 144, 256), ("0.62", 151, 241),
  ("0.67", 156, 234), ("0.75", 166, 221), ("1.00", 192, 192), ("1.33", 221, 165),
  ("1.50", 235, 156), ("1.78", 256, 144), ("1.89", 263, 139), ("2.00", 271, 135),
  ("2.08", 277, 132)]

/-- Transcribed from ASPECT_RATIO_2880 in data_process.py (insertion order preserved). -/
def ASPECT_RATIO_2880 : RTable := [
  ("0.25", 1408, 5760), ("0.26", 1408, 5568), ("0.27", 1408, 5376), ("0.28", 1408, 5184),
  ("0.32", 1600, 4992), ("0.33", 1600, 4800), ("0.34", 1600, 4672), ("0.4", 1792, 4480),
  ("0.42", 1792, 4288), ("0.47", 1920, 4096), ("0.49", 1920, 3904), ("0.51", 1920, 3776),
  ("0.55", 2112, 3840), ("0.59", 2112, 3584), ("0.68", 2304, 3392), ("0.72", 2304, 3200),
  ("0.78", 2496, 3200), ("0.83", 2496, 3008), ("0.89", 2688, 3008), ("0.93", 2688, 2880),
  ("1.0", 2880, 2880), ("1.07", 2880, 2688), ("1.12", 3008, 2688), ("1.21", 3008, 2496),
  ("1.28", 3200, 2496), ("1.39", 3200, 2304), ("1.47", 3392, 2304), ("1.7", 3584, 2112),
  ("1.82", 3840, 2112), ("2.03", 3904, 1920), ("2.13", 4096, 1920), ("2.39", 4288, 1792),
  ("2.5", 4480, 1792), ("2.92", 4672, 1600), ("3.0", 4800, 1600), ("3.12", 4992, 1600),
  ("3.68", 5184, 1408), ("3.82", 5376, 1408), ("3.95", 5568, 1408), ("4.0", 5760, 1408)]

/-- Transcribed from ASPECT_RATIO_2048 in data_process.py (insertion order preserved). -/
def ASPECT_RATIO_2048 : RTable := [
  ("0.25", 1024, 4096), ("0.26", 1024, 3968), ("0.27", 1024, 3840), ("0.28", 1024, 3712),
  ("0.32", 1152, 3584), ("0.33", 1152, 3456), ("0.35", 1152, 3328), ("0.4", 1280, 3200),
  ("0.42", 1280, 3072), ("0.48", 1408, 2944), ("0.5", 1408, 2816), ("0.52", 1408, 2688),
  ("0.57", 1536, 2688), ("0.6", 1536, 2560), ("0.68", 1664, 2432), ("0.72", 1664, 2304),
  ("0.78", 1792, 2304), ("0.82", 1792, 2176), ("0.88", 1920, 2176), ("0.94", 1920, 2048),
  ("1.0", 2048, 2048), ("1.07", 2048, 1920), ("1.13", 2176, 1920), ("1.21", 2176, 1792),
  ("1.29", 2304, 1792), ("1.38", 2304, 1664), ("1.46", 2432, 1664), ("1.67", 2560, 1536),
  ("1.75", 2688, 1536), ("2.0", 2816, 1408), ("2.09", 2944, 1408), ("2.4", 3072, 1280),
  ("2.5", 3200, 1280), ("2.89", 3328, 1152), ("3.0", 3456, 1152), ("3.11", 3584, 1152),
  ("3.62", 3712, 1024), ("3.75", 3840, 1024), ("3.88", 3968, 1024), ("4.0", 4096, 1024)]

/-- Transcribed from ASPECT_RATIO_1024 in data_process.py (insertion order preserved). -/
def ASPECT_RATIO_1024 : RTable := [
  ("0.25", 512, 2048), ("0.26", 512, 1984), ("0.27", 512, 1920), ("0.28", 512, 1856),
  ("0.32", 576, 1792), ("0.33", 576, 1728), ("0.35", 576, 1664), ("0.4", 640, 1600),
  ("0.42", 640, 1536), ("0.48", 704, 1472), ("0.5", 704, 1408), ("0.52", 704, 1344),
  ("0.57", 768, 1344), ("0.6", 768, 1280), ("0.68", 832, 1216), ("0.72", 832, 1152),
  ("0.78", 896, 1152), ("0.82", 896, 1088), ("0.88", 960, 1088), ("0.94", 960, 1024),
  ("1.0", 1024, 1024), ("1.07", 1024, 960), ("1.13", 1088, 960), ("1.21", 1088, 896),
  ("1.29", 1152, 896), ("1.38", 1152, 832), ("1.46", 1216, 832), ("1.67", 1280, 768),
  ("1.75", 1344, 768), ("2.0", 1408, 704), ("2.09", 1472, 704), ("2.4", 1536, 640),
  ("2.5", 1600, 640), ("2.89", 1664, 576), ("3.0", 1728, 576), ("3.11", 1792, 576),
  ("3.62", 1856, 512), ("3.75", 1920, 512), ("3.88", 1984, 512), ("4.0", 2048, 512)]

/-- Transcribed from ASPECT_RATIO_512 in data_process.py (insertion order preserved). -/
def ASPECT_RATIO_512 : RTable := [
  ("0.25", 256, 1024), ("0.26", 256, 992), ("0.27", 256, 960), ("0.28", 256, 928),
  ("0.32", 288, 896), ("0.33", 288, 864), ("0.35", 288, 832), ("0.4", 320, 800),
  ("0.42", 320, 768), ("0.48", 352, 736), ("0.5", 352, 704), ("0.52", 352, 672),
  ("0.57", 384, 672), ("0.6", 384, 640), ("0.68", 416, 608), ("0.72", 416, 576),
  ("0.78", 448, 576), ("0.82", 448, 544), ("0.88", 480, 544), ("0.94", 480, 512),
  ("1.0", 512, 512), ("1.07", 512, 480), ("1.13", 544, 480), ("1.21", 544, 448),
  ("1.29", 576, 448), ("1.38", 576, 416), ("1.46", 608, 416), ("1.67", 640, 384),
  ("1.75", 672, 384), ("2.0", 704, 352), ("2.09", 736, 352), ("2.4", 768, 320),
  ("2.5", 800, 320), ("2.89", 832, 288), ("3.0", 864, 288), ("3.11", 896, 288),
  ("3.62", 928, 256), ("3.75", 960, 256), ("3.88", 992, 256), ("4.0", 1024, 256)]

/-- Transcribed from ASPECT_RATIO_256 in data_process.py (insertion order preserved). -/
def ASPECT_RATIO_256 : RTable := [
  ("0.25", 128, 512), ("0.26", 128, 496), ("0.27", 128, 480), ("0.28", 128, 464),
  ("0.32", 144, 448), ("0.33", 144, 432), ("0.35", 144, 416), ("0.4", 160, 400),
  ("0.42", 160, 384), ("0.48", 176, 368), ("0.5", 176, 352), ("0.52", 176, 336),
  ("0.57", 192, 336), ("0.6", 192, 320), ("0.68", 208, 304), ("0.72", 208, 288),
  ("0.78", 224, 288), ("0.82", 224, 272), ("0.88", 240, 272), ("0.94", 240, 256),
  ("1.0", 256, 256), ("1.07", 256, 240), ("1.13", 272, 240), ("1.21", 272, 224),
  ("1.29", 288, 224), ("1.38", 288, 208), ("1.46", 304, 208), ("1.67", 320, 192),
  ("1.75", 336, 192), ("2.0", 352, 176), ("2.09", 368, 176), ("2.4", 384, 160),
  ("2.5", 400, 160), ("2.89", 416, 144), ("3.0", 432, 144), ("3.11", 448, 144),
  ("3.62", 464, 128), ("3.75", 480, 128), ("3.88", 496, 128), ("4.0", 512, 128)]

/-- Transcribed from NUM_FRAMES_MAP in data_process.py. -/
def NUM_FRAMES_MAP : List (String × ℕ) := [
  ("1x", 51), ("2x", 102), ("4x", 204), ("8x", 408), ("16x", 816), ("2s", 51), ("4s", 102), ("8s", 204), ("16s", 408), ("32s", 816)]

/-- Tier -> (pixel-area budget, ratio table), from ASPECT_RATIOS in data_process.py. -/
def ASPECT_RATIOS : List (String × ℕ × RTable) := [
  ("144p", 36864, ASPECT_RATIO_144P),
  ("256", 65536, ASPECT_RATIO_256),
  ("240p", 102240, ASPECT_RATIO_240P),
  ("360p", 230400, ASPECT_RATIO_360P),
  ("512", 262144, ASPECT_RATIO_512),
  ("480p", 409920, ASPECT_RATIO_480P),
  ("720p", 921600, ASPECT_RATIO_720P),
  ("1024", 1048576, ASPECT_RATIO_1024),
  ("1080p", 2073600, ASPECT_RATIO_1080P),
  ("2k", 3686400, ASPECT_RATIO_2K),
  ("2048", 4194304, ASPECT_RATIO_2048),
  ("2880", 8294400, ASPECT_RATIO_2880),
  ("4k", 8294400, ASPECT_RATIO_4K)]
/-- Embeds `get_image_size`: label -> key via ASPECT_RATIO_MAP, tier lookup in
ASPECT_RATIOS, then key lookup (KeyError / failing assert modelled as `none`). -/
def get_image_size (res ar_label : String) : Option (ℕ × ℕ) :=
  match List.lookup ar_label ASPECT_RATIO_MAP with
  | none => none
  | some ar_key =>
    match List.lookup res ASPECT_RATIOS with
    | none => none
    | some (_, rs_dict) => List.lookup ar_key rs_dict

/-- Python `min(l, key = f)`: first element attaining the minimal key value
(`none` on the empty list, where Python raises). -/
def min_by_key (f : String → ℚ) : List String → Option String
  | [] => none
  | x :: xs => some (xs.foldl (fun b a => if f a < f b then a else b) x)

/-- Embeds `get_closest_ratio` (the spec's `closest_ratio_key`): the table key
whose `float` value is nearest to `height / width`, via Python `min`. -/
def closest_ratio_key (height width : ℚ) (ratios : RTable) : Option String :=
  min_by_key (fun k => absQ (key_val k - height / width)) (ratios.map Prod.fst)

/-- No two adjacent underscores in a digit string. -/
def noDoubleUnderscore : List Char → Bool
  | [] => true
  | [_] => true
  | a :: b :: rest => !(a == '_' && b == '_') && noDoubleUnderscore (b :: rest)

/-- Python `int(s)`: digits with single separating underscores. -/
def validIntBody (l : List Char) : Bool :=
  match l with
  | [] => false
  | _ =>
    l.head?.all (·.isDigit) && l.getLast?.all (·.isDigit) &&
    l.all (fun ch => ch.isDigit || ch == '_') && noDoubleUnderscore l

/-- Value of a digit string once underscores are dropped. -/
def digitsVal (l : List Char) : ℕ :=
  (l.filter (fun ch => ch ≠ '_')).foldl (fun acc ch => 10 * acc + (ch.toNat - 48)) 0

/-- Strip leading and trailing whitespace from a character list. -/
def trimChars (l : List Char) : List Char :=
  ((l.dropWhile (fun ch => ch.isWhitespace)).reverse.dropWhile
    (fun ch => ch.isWhitespace)).reverse

/-- Embeds Python `int(str)`: optional surrounding whitespace, optional sign,
then an underscore-separated digit string; `none` models `ValueError`. -/
def int_of_string (s : String) : Option ℤ :=
  match trimChars s.toList with
  | '+' :: rest => if validIntBody rest then some (digitsVal rest : ℤ) else none
  | '-' :: rest => if validIntBody rest then some (-(digitsVal rest : ℤ)) else none
  | rest => if validIntBody rest then some (digitsVal rest : ℤ) else none

/-- Embeds `get_num_frames`: table lookup in NUM_FRAMES_MAP, else `int(...)`. -/
def get_num_frames (num_frames : String) : Option ℤ :=
  match List.lookup num_frames NUM_FRAMES_MAP with
  | some v => some (v : ℤ)
  | none => int_of_string num_frames

/-- The scaled size and crop offsets computed by `resize_crop_to_fill`:
`sh, sw` are the resized (height, width) and `i, j` the crop start offsets. -/
structure RcfGeom where
  sh : ℤ
  sw : ℤ
  i : ℤ
  j : ℤ

/-- Geometry of `resize_crop_to_fill` for a source of width `w`, height `h`
and target `(th, tw)`, exactly as the source computes it. -/
def rcf_geom (w h th tw : ℕ) : RcfGeom :=
  if (th : ℚ) / (h : ℚ) > (tw : ℚ) / (w : ℚ) then
    let sw : ℤ := pyround ((w : ℚ) * ((th : ℚ) / (h : ℚ)))
    { sh := (th : ℤ), sw := sw, i := 0, j := pyround (((sw - (tw : ℤ) : ℤ) : ℚ) / 2) }
  else
    let sh : ℤ := pyround ((h : ℚ) * ((tw : ℚ) / (w : ℚ)))
    { sh := sh, sw := (tw : ℤ), i := pyround (((sh - (th : ℤ) : ℤ) : ℚ) / 2), j := 0 }

/-- A decoded still image: width, height, and pixel content indexed (row, col).
A pixel value abstracts the channel tuple. -/
structure PImage where
  w : ℕ
  h : ℕ
  px : ℕ → ℕ → ℤ

/-- Embeds `resize_crop_to_fill`. `resize` stands for the external PIL
`Image.resize` (bicubic kernel), called as in the source with (width, height);
the failing `assert` is modelled as `none`. -/
def resize_crop_to_fill (resize : PImage → ℕ → ℕ → PImage) (img : PImage)
    (image_size : ℕ × ℕ) : Option PImage :=
  let g := rcf_geom img.w img.h image_size.1 image_size.2
  let image := resize img g.sw.toNat g.sh.toNat
  if g.i + image_size.1 ≤ (image.h : ℤ) ∧ g.j + image_size.2 ≤ (image.w : ℤ) then
    some { w := image_size.2, h := image_size.1,
           px := fun r c => image.px (r + g.i.toNat) (c + g.j.toNat) }
  else none

/-- The halving pre-pass of `center_crop_arr` (`while min(size) >= 2*image_size`),
with explicit fuel bounding the iteration count (the Python loop terminates for
`image_size >= 1`; callers pass `w + h` as fuel). `resizeBox` is PIL box resize. -/
def halve_loop (resizeBox : PImage → ℕ → ℕ → PImage) : ℕ → PImage → ℕ → PImage
  | 0, img, _ => img
  | fuel + 1, img, image_size =>
    if 2 * image_size ≤ min img.w img.h then
      halve_loop resizeBox fuel (resizeBox img (img.w / 2) (img.h / 2)) image_size
    else img

/-- The single bicubic rescale step of `center_crop_arr`: scale both dims by
`image_size / min(w, h)` and round. -/
def cca_scaled (resizeBicubic : PImage → ℕ → ℕ → PImage) (img : PImage)
    (image_size : ℕ) : PImage :=
  let scale : ℚ := (image_size : ℚ) / (min img.w img.h : ℚ)
  resizeBicubic img (pyround ((img.w : ℚ) * scale)).toNat (pyround ((img.h : ℚ) * scale)).toNat

/-- Embeds `center_crop_arr`: box-filter halving pre-pass, one bicubic rescale,
then a crop whose offsets use Python floor division (`//`). -/
def center_crop_arr (resizeBox resizeBicubic : PImage → ℕ → ℕ → PImage)
    (img : PImage) (image_size : ℕ) : PImage :=
  let mid := halve_loop resizeBox (img.w + img.h) img image_size
  let scaled := cca_scaled resizeBicubic mid image_size
  let crop_y : ℤ := ((scaled.h : ℤ) - (image_size : ℤ)).fdiv 2
  let crop_x : ℤ := ((scaled.w : ℤ) - (image_size : ℤ)).fdiv 2
  { w := min (crop_x.toNat + image_size) scaled.w - crop_x.toNat,
    h := min (crop_y.toNat + image_size) scaled.h - crop_y.toNat,
    px := fun r c => scaled.px (r + crop_y.toNat) (c + crop_x.toNat) }

/-- A video clip tensor (T, C, H, W) with content indexed (t, c, row, col). -/
structure VClip where
  t : ℕ
  c : ℕ
  h : ℕ
  w : ℕ
  px : ℕ → ℕ → ℕ → ℕ → ℤ

/-- Embeds `crop`: `clip[..., i:i+h, j:j+w]` for nonnegative slice starts. -/
def crop (clip : VClip) (i j h w : ℕ) : VClip :=
  { t := clip.t, c := clip.c,
    h := min (i + h) clip.h - i, w := min (j + w) clip.w - j,
    px := fun a b r cc => clip.px a b (r + i) (cc + j) }

/-- Embeds `center_crop`: guard, banker's-rounded centred offsets, then `crop`;
raising `ValueError` is modelled as `none`. -/
def center_crop (clip : VClip) (crop_size : ℕ × ℕ) : Option VClip :=
  let th := crop_size.1
  let tw := crop_size.2
  if clip.h < th ∨ clip.w < tw then none
  else
    some (crop clip (pyround (((clip.h : ℤ) - (th : ℤ) : ℤ) / 2 : ℚ)).toNat
                    (pyround (((clip.w : ℤ) - (tw : ℤ) : ℤ) / 2 : ℚ)).toNat th tw)

/-- Embeds `resize_scale`: `torch.nn.functional.interpolate` with
`scale_factor = target_size[0] / min(H, W)`; `interpolate` is the external
torch resampler (a dim `d` scales to `⌊d * s⌋` under its shape contract). -/
def resize_scale (interpolate : VClip → ℚ → VClip) (clip : VClip)
    (target_size : ℕ × ℕ) : VClip :=
  interpolate clip ((target_size.1 : ℚ) / (min clip.h clip.w : ℚ))

/-- The `size` argument accepted by `UCFCenterCropVideo.__init__`: a number or
a 2-tuple. -/
inductive PySize where
  | num : ℕ → PySize
  | pair : ℕ × ℕ → PySize

/-- `UCFCenterCropVideo.__init__`: a number becomes `(size, size)`; any 2-tuple
is accepted as is (there is no squareness check). -/
def ucf_init (s : PySize) : ℕ × ℕ :=
  match s with
  | .num n => (n, n)
  | .pair p => p

/-- Embeds `UCFCenterCropVideo.__call__`: `resize_scale` then `center_crop`. -/
def ucf_center_crop_video (interpolate : VClip → ℚ → VClip) (s : PySize)
    (clip : VClip) : Option VClip :=
  center_crop (resize_scale interpolate clip (ucf_init s)) (ucf_init s)

/-- The composed video transform pipelines constructed by `get_transforms_video`. -/
inductive VideoTransform where
  | center (size : ℕ) : VideoTransform
  | resizeCrop (size : ℕ × ℕ) : VideoTransform

/-- Embeds `get_transforms_video`: the "center" branch asserts a square
`image_size`; unknown names raise `NotImplementedError` (modelled as `.error`). -/
def get_transforms_video (name : Option String) (image_size : ℕ × ℕ) :
    Except String (Option VideoTransform) :=
  match name with
  | none => .ok none
  | some "center" =>
    if image_size.1 = image_size.2 then .ok (some (.center image_size.1))
    else .error "image_size must be square for center crop"
  | some "resize_crop" => .ok (some (.resizeCrop image_size))
  | some _ => .error "Transform not implemented"

/-- A (C, T, H, W) tensor with its contents flattened to a value list. -/
structure STensor where
  c : ℕ
  t : ℕ
  h : ℕ
  w : ℕ
  data : List ℚ

/-- torch `clamp`. -/
def clampQ (lo hi v : ℚ) : ℚ := minQ hi (maxQ lo v)

/-- Embeds the buffer effect of `save_sample`: returns the final contents of the
caller's tensor (the chain `clamp_`, `sub_`, `div_` operates in place on it)
together with the uint8 frame values handed to `write_video` (`none` in the
image branch, where `save_image` is an external call on an unmutated tensor).
Axis permutation/layout is not tracked in the flat value list. -/
def save_sample (x : STensor) (normalize : Bool) (value_range : ℚ × ℚ)
    (force_video : Bool) : STensor × Option (List ℤ) :=
  if ¬ force_video ∧ x.t = 1 then
    (x, none)
  else
    let low := value_range.1
    let high := value_range.2
    let x1 : STensor :=
      if normalize then
        { x with data :=
            x.data.map (fun v => (clampQ low high v - low) / maxQ (high - low) (1 / 100000)) }
      else x
    (x1, some (x1.data.map (fun v => (clampQ 0 255 (v * 255 + 1/2)).floor)))

/-- The conditioning-metadata dictionaries built by `prepare_multi_resolution_info`. -/
inductive MRInfo where
  | pixartms (ar : List ℚ) (hw : List (ℚ × ℚ)) : MRInfo
  | stdit (height width num_frames ar fps : List ℚ) : MRInfo

/-- `IMG_FPS` from the source. -/
def IMG_FPS : ℕ := 120

/-- Embeds `prepare_multi_resolution_info` (device/dtype dropped; a tensor
`repeat(batch_size)` becomes `List.replicate`; `info_type is None` yields the
empty dict, modelled as `none`). -/
def prepare_multi_resolution_info (info_type : Option String) (batch_size : ℕ)
    (image_size : ℕ × ℕ) (num_frames : ℕ) (fps : ℚ) : Except String (Option MRInfo) :=
  match info_type with
  | none => .ok none
  | some "PixArtMS" =>
    .ok (some (.pixartms
      (List.replicate batch_size ((image_size.1 : ℚ) / (image_size.2 : ℚ)))
      (List.replicate batch_size ((image_size.1 : ℚ), (image_size.2 : ℚ)))))
  | some "STDiT2" | some "OpenSora" =>
    .ok (some (.stdit
      (List.replicate batch_size (image_size.1 : ℚ))
      (List.replicate batch_size (image_size.2 : ℚ))
      (List.replicate batch_size (num_frames : ℚ))
      (List.replicate batch_size ((image_size.1 : ℚ) / (image_size.2 : ℚ)))
      (List.replicate batch_size (if 1 < num_frames then fps else (IMG_FPS : ℚ)))))
  | some _ => .error "NotImplementedError"

/-- A resampler that satisfies the external shape contract and keeps pixel
content; used to instantiate theorems on concrete inputs. -/
def dimResize : PImage → ℕ → ℕ → PImage := fun a b c => { w := b, h := c, px := a.px }

/-- A clip resampler with `interpolate`'s dimension behaviour, keeping content;
used to instantiate theorems on concrete inputs. -/
def dimInterp : VClip → ℚ → VClip :=
  fun clip s => { t := clip.t, c := clip.c,
                  h := (⌊(clip.h : ℚ) * s⌋).toNat, w := (⌊(clip.w : ℚ) * s⌋).toNat,
                  px := clip.px }

lemma pyround_eval (q : ℚ) :
    pyround q = if q - ⌊q⌋ < 1/2 then ⌊q⌋
      else if 1/2 < q - ⌊q⌋ then ⌊q⌋ + 1
      else if ⌊q⌋ % 2 = 0 then ⌊q⌋ else ⌊q⌋ + 1 := by
  unfold pyround
  rw [ratFloor_eq]

attribute [irreducible] pyround

lemma kv_1_0 : key_val "1.0" = 1 := by
  simp [key_val, parseDecimal, splitDot, digitsToNat] <;> norm_num

lemma kv_2_0 : key_val "2.0" = 2 := by
  simp [key_val, parseDecimal, splitDot, digitsToNat] <;> norm_num

lemma foldl_min_le {α : Type} (f : α → ℚ) :
    ∀ (xs : List α) (b : α),
      f (xs.foldl (fun b a => if f a < f b then a else b) b) ≤ f b ∧
      ∀ a ∈ xs, f (xs.foldl (fun b a => if f a < f b then a else b) b) ≤ f a := by
  intro xs
  induction xs with
  | nil => intro b; exact ⟨le_refl _, by simp⟩
  | cons x xs ih =>
    intro b
    rw [List.foldl_cons]
    have hstep : f (if f x < f b then x else b) ≤ f b ∧ f (if f x < f b then x else b) ≤ f x := by
      split_ifs with h
      · exact ⟨le_of_lt h, le_refl _⟩
      · exact ⟨le_refl _, not_lt.mp h⟩
    obtain ⟨h1, h2⟩ := ih (if f x < f b then x else b)
    refine ⟨le_trans h1 hstep.1, ?_⟩
    intro a ha
    rcases List.mem_cons.mp ha with rfl | ha
    · exact le_trans h1 hstep.2
    · exact h2 a ha

lemma foldl_min_first {α : Type} (f : α → ℚ) :
    ∀ (xs : List α) (b : α),
      ∃ l1 l2, b :: xs = l1 ++ (xs.foldl (fun b a => if f a < f b then a else b) b) :: l2 ∧
        ∀ a ∈ l1, f (xs.foldl (fun b a => if f a < f b then a else b) b) < f a := by
  intro xs
  induction xs with
  | nil => intro b; exact ⟨[], [], rfl, by simp⟩
  | cons x xs ih =>
    intro b
    rw [List.foldl_cons]
    by_cases h : f x < f b
    · rw [if_pos h]
      obtain ⟨l1, l2, heq, hlt⟩ := ih x
      refine ⟨b :: l1, l2, ?_, ?_⟩
      · rw [List.cons_append, ← heq]
      · intro a ha
        rcases List.mem_cons.mp ha with rfl | ha
        · exact lt_of_le_of_lt (foldl_min_le f xs x).1 h
        · exact hlt a ha
    · rw [if_neg h]
      obtain ⟨l1, l2, heq, hlt⟩ := ih b
      match l1, heq, hlt with
      | [], heq, hlt =>
        have hb : b = xs.foldl (fun b a => if f a < f b then a else b) b :=
          (List.cons.injEq _ _ _ _ ▸ heq).1
        exact ⟨[], x :: xs, by rw [← hb]; rfl, by simp⟩
      | c :: tl, heq, hlt =>
        have hcb : b = c ∧ xs = tl ++ (xs.foldl (fun b a => if f a < f b then a else b) b) :: l2 := by
          rw [List.cons_append] at heq
          exact ⟨(List.cons.injEq _ _ _ _ ▸ heq).1, (List.cons.injEq _ _ _ _ ▸ heq).2⟩
        refine ⟨b :: x :: tl, l2, ?_, ?_⟩
        · rw [List.cons_append, List.cons_append, ← hcb.2]
        · intro a ha
          have hmb : f (xs.foldl (fun b a => if f a < f b then a else b) b) < f b := by
            have := hlt c (List.mem_cons_self c tl)
            rw [← hcb.1] at this
            exact this
          rcases List.mem_cons.mp ha with rfl | ha
          · exact hmb
          · rcases List.mem_cons.mp ha with rfl | ha
            · exact lt_of_lt_of_le hmb (not_lt.mp h)
            · exact hlt a (List.mem_cons_of_mem c ha)

lemma pyround_half_nonneg2 (a b : ℤ) (hd : b ≤ a) : 0 ≤ pyround (((a : ℚ) - (b : ℚ)) / 2) := by
  have hc : ((a : ℚ) - (b : ℚ)) = ((a - b : ℤ) : ℚ) := by push_cast; ring
  rw [hc]
  exact pyround_half_nonneg _ (by omega)

lemma pyround_half_le2 (a b : ℤ) (hd : b ≤ a) : pyround (((a : ℚ) - (b : ℚ)) / 2) ≤ a - b := by
  have hc : ((a : ℚ) - (b : ℚ)) = ((a - b : ℤ) : ℚ) := by push_cast; ring
  rw [hc]
  exact pyround_half_le _ (by omega)

lemma rcf_geom_bounds (w h th tw : ℕ) (hw : 0 < w) (hh : 0 < h) (hth : 0 < th) (htw : 0 < tw) :
    0 ≤ (rcf_geom w h th tw).i ∧ 0 ≤ (rcf_geom w h th tw).j ∧
    (rcf_geom w h th tw).i + th ≤ (rcf_geom w h th tw).sh ∧
    (rcf_geom w h th tw).j + tw ≤ (rcf_geom w h th tw).sw ∧
    (th : ℤ) ≤ (rcf_geom w h th tw).sh ∧ (tw : ℤ) ≤ (rcf_geom w h th tw).sw := by
  have hwQ : (0 : ℚ) < w := by exact_mod_cast hw
  have hhQ : (0 : ℚ) < h := by exact_mod_cast hh
  unfold rcf_geom
  split_ifs with hcase
  · dsimp only
    have hsw : (tw : ℤ) ≤ pyround ((w : ℚ) * ((th : ℚ) / h)) := by
      apply le_pyround_of_le
      have h2 : ((tw : ℤ) : ℚ) = (w : ℚ) * ((tw : ℚ) / w) := by
        push_cast
        field_simp
      rw [h2]
      exact mul_le_mul_of_nonneg_left (le_of_lt hcase) (le_of_lt hwQ)
    have hj1 := pyround_half_nonneg (pyround ((w : ℚ) * ((th : ℚ) / h)) - (tw : ℤ)) (by omega)
    have hj2 := pyround_half_le (pyround ((w : ℚ) * ((th : ℚ) / h)) - (tw : ℤ)) (by omega)
    exact ⟨le_refl 0, hj1, by omega, by omega, by omega, hsw⟩
  · dsimp only
    have hsh : (th : ℤ) ≤ pyround ((h : ℚ) * ((tw : ℚ) / w)) := by
      apply le_pyround_of_le
      have h2 : ((th : ℤ) : ℚ) = (h : ℚ) * ((th : ℚ) / h) := by
        push_cast
        field_simp
      rw [h2]
      exact mul_le_mul_of_nonneg_left (not_lt.mp hcase) (le_of_lt hhQ)
    have hi1 := pyround_half_nonneg (pyround ((h : ℚ) * ((tw : ℚ) / w)) - (th : ℤ)) (by omega)
    have hi2 := pyround_half_le (pyround ((h : ℚ) * ((tw : ℚ) / w)) - (th : ℤ)) (by omega)
    exact ⟨hi1, le_refl 0, by omega, by omega, hsh, by omega⟩

lemma center_crop_offset_le (H t : ℕ) (h : t ≤ H) :
    (pyround (((H : ℤ) - (t : ℤ) : ℤ) / 2 : ℚ)).toNat + t ≤ H := by
  have hd : (0 : ℤ) ≤ (H : ℤ) - t := by omega
  have h1 := pyround_half_le ((H : ℤ) - t) hd
  have h2 := pyround_half_nonneg ((H : ℤ) - t) hd
  omega

lemma crop_dims (clip : VClip) (i j th tw : ℕ)
    (hi : i + th ≤ clip.h) (hj : j + tw ≤ clip.w) :
    (crop clip i j th tw).h = th ∧ (crop clip i j th tw).w = tw := by
  unfold crop
  dsimp only
  omega

lemma center_crop_eq (clip : VClip) (th tw : ℕ) (hth : th ≤ clip.h) (htw : tw ≤ clip.w) :
    center_crop clip (th, tw) =
      some (crop clip (pyround (((clip.h : ℤ) - (th : ℤ) : ℤ) / 2 : ℚ)).toNat
        (pyround (((clip.w : ℤ) - (tw : ℤ) : ℤ) / 2 : ℚ)).toNat th tw) := by
  unfold center_crop
  dsimp only
  rw [if_neg (by omega)]

lemma center_crop_some (clip : VClip) (th tw : ℕ) (out : VClip)
    (hout : center_crop clip (th, tw) = some out) :
    th ≤ clip.h ∧ tw ≤ clip.w ∧ out.h = th ∧ out.w = tw ∧
    ∀ a b r cc, out.px a b r cc =
      clip.px a b (r + (pyround (((clip.h : ℤ) - (th : ℤ) : ℤ) / 2 : ℚ)).toNat)
        (cc + (pyround (((clip.w : ℤ) - (tw : ℤ) : ℤ) / 2 : ℚ)).toNat) := by
  unfold center_crop at hout
  dsimp only at hout
  split_ifs at hout with hguard
  have hth : th ≤ clip.h := by omega
  have htw : tw ≤ clip.w := by omega
  obtain rfl : crop clip (pyround (((clip.h : ℤ) - (th : ℤ) : ℤ) / 2 : ℚ)).toNat
      (pyround (((clip.w : ℤ) - (tw : ℤ) : ℤ) / 2 : ℚ)).toNat th tw = out :=
    Option.some.inj hout
  have hd := crop_dims clip _ _ th tw (center_crop_offset_le clip.h th hth)
    (center_crop_offset_le clip.w tw htw)
  exact ⟨hth, htw, hd.1, hd.2, fun a b r cc => rfl⟩

lemma halve_loop_min (resizeBox : PImage → ℕ → ℕ → PImage)
    (hbox : ∀ a b c, (resizeBox a b c).w = b ∧ (resizeBox a b c).h = c) :
    ∀ (fuel : ℕ) (img : PImage) (image_size : ℕ),
      image_size ≤ min img.w img.h →
      image_size ≤ min (halve_loop resizeBox fuel img image_size).w
        (halve_loop resizeBox fuel img image_size).h := by
  intro fuel
  induction fuel with
  | zero => intro img sz hsz; simpa [halve_loop] using hsz
  | succ n ih =>
    intro img sz hsz
    simp only [halve_loop]
    split_ifs with hc
    · apply ih
      rw [(hbox img _ _).1, (hbox img _ _).2]
      omega
    · exact hsz

lemma cca_scaled_dims (rc : PImage → ℕ → ℕ → PImage)
    (hrc : ∀ a b c, (rc a b c).w = b ∧ (rc a b c).h = c)
    (img : PImage) (sz : ℕ) (h1 : 1 ≤ sz) (h2 : sz ≤ min img.w img.h) :
    sz ≤ (cca_scaled rc img sz).w ∧ sz ≤ (cca_scaled rc img sz).h := by
  unfold cca_scaled
  dsimp only
  rw [(hrc img _ _).1, (hrc img _ _).2]
  have hm0 : 0 < min img.w img.h := by omega
  have hm : (0 : ℚ) < ((min img.w img.h : ℕ) : ℚ) := by exact_mod_cast hm0
  have hcast : ((sz : ℤ) : ℚ) = (sz : ℚ) := by norm_cast
  have hbase : ((sz : ℤ) : ℚ) =
      ((min img.w img.h : ℕ) : ℚ) * ((sz : ℚ) / ((min img.w img.h : ℕ) : ℚ)) := by
    rw [hcast, mul_comm, div_mul_cancel₀ _ (ne_of_gt hm)]
  constructor
  · have hwm : ((min img.w img.h : ℕ) : ℚ) ≤ (img.w : ℚ) := by
      exact_mod_cast Nat.min_le_left img.w img.h
    have hle : ((sz : ℤ) : ℚ) ≤ (img.w : ℚ) * ((sz : ℚ) / ((min img.w img.h : ℕ) : ℚ)) := by
      rw [hbase]
      exact mul_le_mul_of_nonneg_right hwm (by positivity)
    have hp := le_pyround_of_le (sz : ℤ) _ hle
    simp only [Nat.cast_min] at hp ⊢
    omega
  · have hwm : ((min img.w img.h : ℕ) : ℚ) ≤ (img.h : ℚ) := by
      exact_mod_cast Nat.min_le_right img.w img.h
    have hle : ((sz : ℤ) : ℚ) ≤ (img.h : ℚ) * ((sz : ℚ) / ((min img.w img.h : ℕ) : ℚ)) := by
      rw [hbase]
      exact mul_le_mul_of_nonneg_right hwm (by positivity)
    have hp := le_pyround_of_le (sz : ℤ) _ hle
    simp only [Nat.cast_min] at hp ⊢
    omega

/-- C1 counterexample: the tables are keyed by H:W, so label "16:9" maps to
quantized key "1.78" and `get_image_size "720p" "16:9"` returns `(1280, 720)`
(height 1280, width 720), not `(720, 1280)` as the claim states. -/
theorem c1_get_image_size_counterexample :
    get_image_size "720p" "16:9" = some (1280, 720) ∧
    get_image_size "720p" "16:9" ≠ some (720, 1280) := by
  constructor
  · decide
  · decide

/-- C1 (amended): `get_image_size "720p" "16:9" = (1280, 720)` and
`get_image_size "1080p" "1:1" = (1440, 1440)`. -/
theorem c1_get_image_size_examples :
    get_image_size "720p" "16:9" = some (1280, 720) ∧
    get_image_size "1080p" "1:1" = some (1440, 1440) := by
  constructor
  · decide
  · decide

/-- C3 counterexample: tier "2880", key "0.51" stores (1920, 3776), whose
product 7249920 falls short of the declared 8294400 budget by 1044480 pixels,
more than one hundred 64x64 quantization units — the claimed ±1-unit tolerance
fails. -/
theorem c3_area_budget_counterexample :
    List.lookup "2880" ASPECT_RATIOS = some (8294400, ASPECT_RATIO_2880) ∧
    List.lookup "0.51" ASPECT_RATIO_2880 = some (1920, 3776) ∧
    (1920 * 3776 : ℤ) = 7249920 ∧
    (8294400 : ℤ) - 1920 * 3776 = 1044480 ∧
    (100 : ℤ) * (64 * 64) < 1044480 := by
  refine ⟨by decide, by decide, by decide, by decide, by decide⟩

/-- C3 (amended): for every tier and every stored (h, w) pair, the product
h * w is within 13% of the tier's declared pixel-area budget (a ±1
quantization-unit bound does not hold; deviations reach about 12.6%). -/
theorem c3_area_budget_within_13_percent :
    ∀ p ∈ ASPECT_RATIOS, ∀ e ∈ p.2.2,
      (100 : ℤ) * |(e.2.1 * e.2.2 : ℤ) - (p.2.1 : ℤ)| ≤ 13 * (p.2.1 : ℤ) := by
  decide

/-- Witness for C3 at tier "720p", key "0.56". -/
theorem c3_area_budget_witness :
    ("720p", 921600, ASPECT_RATIO_720P) ∈ ASPECT_RATIOS ∧
    ("0.56", 720, 1280) ∈ (("720p", 921600, ASPECT_RATIO_720P) : String × ℕ × RTable).2.2 ∧
    (100 : ℤ) *
        |(((("0.56", 720, 1280) : String × ℕ × ℕ).2.1 *
            (("0.56", 720, 1280) : String × ℕ × ℕ).2.2 : ℤ)) -
          (((("720p", 921600, ASPECT_RATIO_720P) : String × ℕ × RTable).2.1 : ℕ) : ℤ)| ≤
      13 * (((("720p", 921600, ASPECT_RATIO_720P) : String × ℕ × RTable).2.1 : ℕ) : ℤ) :=
  ⟨by decide, by decide,
    c3_area_budget_within_13_percent ("720p", 921600, ASPECT_RATIO_720P) (by decide)
      ("0.56", 720, 1280) (by decide)⟩

/-- C8: `get_num_frames` returns the table value for tokens in NUM_FRAMES_MAP
and otherwise parses the token as a plain integer, failing iff neither
succeeds; in particular "8s" gives 204, "42" gives 42 and "bogus" fails. -/
theorem c8_get_num_frames_spec :
    (∀ s v, List.lookup s NUM_FRAMES_MAP = some v → get_num_frames s = some (v : ℤ)) ∧
    (∀ s, List.lookup s NUM_FRAMES_MAP = none → get_num_frames s = int_of_string s) ∧
    get_num_frames "8s" = some 204 ∧ get_num_frames "42" = some 42 ∧
    get_num_frames "bogus" = none := by
  refine ⟨?_, ?_, by decide, by decide, by decide⟩
  · intro s v hv
    unfold get_num_frames
    rw [hv]
  · intro s hv
    unfold get_num_frames
    rw [hv]

/-- Witness for C8 at token "2s". -/
theorem c8_get_num_frames_witness :
    List.lookup "2s" NUM_FRAMES_MAP = some 51 ∧ get_num_frames "2s" = some ((51 : ℕ) : ℤ) :=
  ⟨by decide, c8_get_num_frames_spec.1 "2s" 51 (by decide)⟩

lemma min_by_key_spec (f : String → ℚ) (l : List String) (m : String)
    (hm : min_by_key f l = some m) :
    m ∈ l ∧ (∀ k ∈ l, f m ≤ f k) ∧ ∃ l1 l2, l = l1 ++ m :: l2 ∧ ∀ k ∈ l1, f m < f k := by
  cases l with
  | nil => simp [min_by_key] at hm
  | cons x xs =>
    simp only [min_by_key] at hm
    obtain rfl : xs.foldl (fun b a => if f a < f b then a else b) x = m :=
      Option.some.inj hm
    obtain ⟨hle_b, hle⟩ := foldl_min_le f xs x
    obtain ⟨l1, l2, heq, hlt⟩ := foldl_min_first f xs x
    refine ⟨?_, ?_, l1, l2, heq, hlt⟩
    · rw [heq]
      exact List.mem_append.mpr (Or.inr (List.mem_cons_self _ _))
    · intro k hk
      rcases List.mem_cons.mp hk with rfl | hk
      · exact hle_b
      · exact hle k hk

/-- C4 counterexample: on the table [("2.0", _), ("1.0", _)] at height 3,
width 2 the ratio is 3/2 and both keys are at distance 1/2, an exact tie;
`get_closest_ratio` returns "2.0" — the FIRST of the tied keys in insertion
order (Python `min`) — not the lower numeric value "1.0", and reversing the
table's insertion order changes the answer. Every quantity at this input
(1, 2, 3/2, and the distances 1/2) is a dyadic rational exactly representable
in IEEE-754 binary64, and each operation the source performs on them (`float`
parse, integer division 3/2, subtraction, `abs`, comparison) is exact there,
so CPython computes the same values as this rational model at this input. -/
theorem c4_tie_break_counterexample :
    closest_ratio_key 3 2 [("2.0", 1, 1), ("1.0", 1, 1)] = some "2.0" ∧
    closest_ratio_key 3 2 [("1.0", 1, 1), ("2.0", 1, 1)] = some "1.0" ∧
    absQ (key_val "1.0" - 3 / 2) = absQ (key_val "2.0" - 3 / 2) ∧
    key_val "1.0" < key_val "2.0" := by
  refine ⟨?_, ?_, ?_, ?_⟩
  · simp only [closest_ratio_key, min_by_key, List.map_cons, List.map_nil,
      List.foldl_cons, List.foldl_nil]
    norm_num [kv_1_0, kv_2_0, absQ]
  · simp only [closest_ratio_key, min_by_key, List.map_cons, List.map_nil,
      List.foldl_cons, List.foldl_nil]
    norm_num [kv_1_0, kv_2_0, absQ]
  · rw [kv_1_0, kv_2_0]
    norm_num [absQ]
  · rw [kv_1_0, kv_2_0]
    norm_num

/-- C4 (amended): `get_closest_ratio` returns a key minimizing the computed
absolute difference to height/width; when several keys are equally close under
that computation, it returns the one occurring first in the table's insertion
order (Python `min`), so the result is not in general the lowest numeric value
and does depend on insertion order. (The distances here idealize the source's
binary64 arithmetic as exact rationals; the first-minimizer structure proved
below is a property of Python `min` and holds regardless of the precision the
distances are computed at.) -/
theorem c4_closest_key_first_minimizer (height width : ℚ) (ratios : RTable) (m : String)
    (hm : closest_ratio_key height width ratios = some m) :
    m ∈ ratios.map Prod.fst ∧
    (∀ k ∈ ratios.map Prod.fst,
      absQ (key_val m - height / width) ≤ absQ (key_val k - height / width)) ∧
    ∃ l1 l2, ratios.map Prod.fst = l1 ++ m :: l2 ∧
      ∀ k ∈ l1, absQ (key_val m - height / width) < absQ (key_val k - height / width) := by
  unfold closest_ratio_key at hm
  exact min_by_key_spec _ _ m hm

/-- Witness for C4 on a one-entry table. -/
theorem c4_closest_key_witness :
    closest_ratio_key 1 1 [("1.0", 1, 1)] = some "1.0" ∧
    ("1.0" ∈ ([("1.0", 1, 1)] : RTable).map Prod.fst ∧
      (∀ k ∈ ([("1.0", 1, 1)] : RTable).map Prod.fst,
        absQ (key_val "1.0" - 1 / 1) ≤ absQ (key_val k - 1 / 1)) ∧
      ∃ l1 l2, ([("1.0", 1, 1)] : RTable).map Prod.fst = l1 ++ "1.0" :: l2 ∧
        ∀ k ∈ l1, absQ (key_val "1.0" - 1 / 1) < absQ (key_val k - 1 / 1)) :=
  ⟨rfl, c4_closest_key_first_minimizer 1 1 [("1.0", 1, 1)] "1.0" rfl⟩

/-- C2: for every source image with positive width and height and every
positive target (th, tw), the scaled size and centred crop offsets computed by
`resize_crop_to_fill` satisfy 0 ≤ i, 0 ≤ j, i + th ≤ scaled height and
j + tw ≤ scaled width, so the asserted post-condition never fails (the call
returns `some` whenever the external resize meets its shape contract). -/
theorem c2_rcf_assert_in_bounds (resize : PImage → ℕ → ℕ → PImage)
    (hres : ∀ a b c, (resize a b c).w = b ∧ (resize a b c).h = c)
    (img : PImage) (th tw : ℕ)
    (hw : 0 < img.w) (hh : 0 < img.h) (hth : 0 < th) (htw : 0 < tw) :
    0 ≤ (rcf_geom img.w img.h th tw).i ∧ 0 ≤ (rcf_geom img.w img.h th tw).j ∧
    (rcf_geom img.w img.h th tw).i + th ≤ (rcf_geom img.w img.h th tw).sh ∧
    (rcf_geom img.w img.h th tw).j + tw ≤ (rcf_geom img.w img.h th tw).sw ∧
    (resize_crop_to_fill resize img (th, tw)).isSome = true := by
  obtain ⟨hi, hj, hith, hjtw, hsh, hsw⟩ := rcf_geom_bounds img.w img.h th tw hw hh hth htw
  refine ⟨hi, hj, hith, hjtw, ?_⟩
  unfold resize_crop_to_fill
  dsimp only
  rw [(hres img _ _).1, (hres img _ _).2]
  have h1 : (((rcf_geom img.w img.h th tw).sh).toNat : ℤ) = (rcf_geom img.w img.h th tw).sh :=
    Int.toNat_of_nonneg (by omega)
  have h2 : (((rcf_geom img.w img.h th tw).sw).toNat : ℤ) = (rcf_geom img.w img.h th tw).sw :=
    Int.toNat_of_nonneg (by omega)
  rw [h1, h2, if_pos ⟨by omega, by omega⟩]
  rfl

/-- Witness for C2 at the spec's 100x200 (h, w) source and (50, 50) target. -/
theorem c2_rcf_assert_in_bounds_witness :
    (∀ a b c, (dimResize a b c).w = b ∧ (dimResize a b c).h = c) ∧
    0 < (200 : ℕ) ∧ 0 < (100 : ℕ) ∧ 0 < (50 : ℕ) ∧
    (0 ≤ (rcf_geom 200 100 50 50).i ∧ 0 ≤ (rcf_geom 200 100 50 50).j ∧
      (rcf_geom 200 100 50 50).i + 50 ≤ (rcf_geom 200 100 50 50).sh ∧
      (rcf_geom 200 100 50 50).j + 50 ≤ (rcf_geom 200 100 50 50).sw ∧
      (resize_crop_to_fill dimResize { w := 200, h := 100, px := fun _ _ => 0 }
        (50, 50)).isSome = true) :=
  ⟨fun a b c => ⟨rfl, rfl⟩, by decide, by decide, by decide,
    c2_rcf_assert_in_bounds dimResize (fun a b c => ⟨rfl, rfl⟩)
      { w := 200, h := 100, px := fun _ _ => 0 } 50 50
      (by decide) (by decide) (by decide) (by decide)⟩

/-- C5: the output of `resize_crop_to_fill` always has exactly the target
(height, width) shape, and when the source shape already equals the target the
output is the input unchanged — given that the external resize meets its shape
contract and is the identity when invoked at the source's own size (true of
bicubic resampling at unit scale). -/
theorem c5_rcf_shape_and_identity (resize : PImage → ℕ → ℕ → PImage)
    (hres : ∀ a b c, (resize a b c).w = b ∧ (resize a b c).h = c)
    (hid : ∀ a, resize a a.w a.h = a)
    (img : PImage) (th tw : ℕ) (hth : 0 < th) (htw : 0 < tw) :
    (∀ out, resize_crop_to_fill resize img (th, tw) = some out → out.h = th ∧ out.w = tw) ∧
    (img.h = th → img.w = tw → resize_crop_to_fill resize img (th, tw) = some img) := by
  constructor
  · intro out hout
    unfold resize_crop_to_fill at hout
    dsimp only at hout
    split_ifs at hout
    obtain rfl := Option.some.inj hout
    exact ⟨rfl, rfl⟩
  · intro hH hW
    obtain ⟨iw, ih2, ipx⟩ := img
    dsimp only at hH hW
    subst hH
    subst hW
    unfold resize_crop_to_fill rcf_geom
    dsimp only
    have hihQ : ((ih2 : ℕ) : ℚ) ≠ 0 := Nat.cast_ne_zero.mpr (by omega)
    have hiwQ : ((iw : ℕ) : ℚ) ≠ 0 := Nat.cast_ne_zero.mpr (by omega)
    rw [div_self hihQ, div_self hiwQ, if_neg (lt_irrefl (1 : ℚ))]
    dsimp only
    rw [mul_one, pyround_natCast]
    have hz : ((((ih2 : ℕ) : ℤ) - ((ih2 : ℕ) : ℤ) : ℤ) : ℚ) / 2 = ((0 : ℤ) : ℚ) := by
      push_cast
      ring
    rw [hz, pyround_intCast, Int.toNat_natCast, Int.toNat_natCast]
    have hid2 := hid ⟨iw, ih2, ipx⟩
    dsimp only at hid2
    rw [hid2]
    dsimp only
    rw [if_pos ⟨by omega, by omega⟩]
    rfl

/-- Witness for C5 on a conforming 3x3 image. -/
theorem c5_rcf_shape_and_identity_witness :
    (∀ a b c, (dimResize a b c).w = b ∧ (dimResize a b c).h = c) ∧
    (∀ a, dimResize a a.w a.h = a) ∧ 0 < (3 : ℕ) ∧
    resize_crop_to_fill dimResize { w := 3, h := 3, px := fun r c => (r + 2 * c : ℤ) } (3, 3)
      = some { w := 3, h := 3, px := fun r c => (r + 2 * c : ℤ) } :=
  ⟨fun a b c => ⟨rfl, rfl⟩, fun a => rfl, by decide,
    (c5_rcf_shape_and_identity dimResize (fun a b c => ⟨rfl, rfl⟩) (fun a => rfl)
      { w := 3, h := 3, px := fun r c => (r + 2 * c : ℤ) } 3 3 (by decide) (by decide)).2
      rfl rfl⟩

/-- C6 (amended): after the proportional short-edge resize, the video path
(`center_crop`) crops at banker's-rounded centred offsets
`round((dim - size)/2)`, while the still-image path (`center_crop_arr`) crops
at floor-division offsets `(dim - size) // 2`; both produce exactly the target
extent. The claim that BOTH paths use `round` is corrected: the image path
uses floor division. -/
theorem c6_center_crop_offsets :
    (∀ (clip : VClip) (th tw : ℕ), th ≤ clip.h → tw ≤ clip.w →
      center_crop clip (th, tw) =
        some (crop clip (pyround (((clip.h : ℤ) - (th : ℤ) : ℤ) / 2 : ℚ)).toNat
          (pyround (((clip.w : ℤ) - (tw : ℤ) : ℤ) / 2 : ℚ)).toNat th tw) ∧
      (crop clip (pyround (((clip.h : ℤ) - (th : ℤ) : ℤ) / 2 : ℚ)).toNat
          (pyround (((clip.w : ℤ) - (tw : ℤ) : ℤ) / 2 : ℚ)).toNat th tw).h = th ∧
      (crop clip (pyround (((clip.h : ℤ) - (th : ℤ) : ℤ) / 2 : ℚ)).toNat
          (pyround (((clip.w : ℤ) - (tw : ℤ) : ℤ) / 2 : ℚ)).toNat th tw).w = tw) ∧
    (∀ (rb rc : PImage → ℕ → ℕ → PImage),
      (∀ a b c, (rb a b c).w = b ∧ (rb a b c).h = c) →
      (∀ a b c, (rc a b c).w = b ∧ (rc a b c).h = c) →
      ∀ (img : PImage) (sz : ℕ), 1 ≤ sz → sz ≤ min img.w img.h →
        (center_crop_arr rb rc img sz).h = sz ∧ (center_crop_arr rb rc img sz).w = sz ∧
        ∀ r c, (center_crop_arr rb rc img sz).px r c =
          (cca_scaled rc (halve_loop rb (img.w + img.h) img sz) sz).px
            (r + ((((cca_scaled rc (halve_loop rb (img.w + img.h) img sz) sz).h : ℤ)
              - (sz : ℤ)).fdiv 2).toNat)
            (c + ((((cca_scaled rc (halve_loop rb (img.w + img.h) img sz) sz).w : ℤ)
              - (sz : ℤ)).fdiv 2).toNat)) := by
  constructor
  · intro clip th tw hth htw
    exact ⟨center_crop_eq clip th tw hth htw,
      (crop_dims clip _ _ th tw (center_crop_offset_le clip.h th hth)
        (center_crop_offset_le clip.w tw htw)).1,
      (crop_dims clip _ _ th tw (center_crop_offset_le clip.h th hth)
        (center_crop_offset_le clip.w tw htw)).2⟩
  · intro rb rc hrb hrc img sz h1 h2
    have hmid := halve_loop_min rb hrb (img.w + img.h) img sz h2
    have hsc := cca_scaled_dims rc hrc (halve_loop rb (img.w + img.h) img sz) sz h1 hmid
    unfold center_crop_arr
    dsimp only
    have hy0 : 0 ≤ (((cca_scaled rc (halve_loop rb (img.w + img.h) img sz) sz).h : ℤ)
        - (sz : ℤ)).fdiv 2 := Int.fdiv_nonneg (by omega) (by norm_num)
    have hy1 : (((cca_scaled rc (halve_loop rb (img.w + img.h) img sz) sz).h : ℤ)
        - (sz : ℤ)).fdiv 2 ≤
        ((cca_scaled rc (halve_loop rb (img.w + img.h) img sz) sz).h : ℤ) - (sz : ℤ) := by
      rw [Int.fdiv_eq_ediv _ (by norm_num)]
      exact Int.ediv_le_self _ (by omega)
    have hx0 : 0 ≤ (((cca_scaled rc (halve_loop rb (img.w + img.h) img sz) sz).w : ℤ)
        - (sz : ℤ)).fdiv 2 := Int.fdiv_nonneg (by omega) (by norm_num)
    have hx1 : (((cca_scaled rc (halve_loop rb (img.w + img.h) img sz) sz).w : ℤ)
        - (sz : ℤ)).fdiv 2 ≤
        ((cca_scaled rc (halve_loop rb (img.w + img.h) img sz) sz).w : ℤ) - (sz : ℤ) := by
      rw [Int.fdiv_eq_ediv _ (by norm_num)]
      exact Int.ediv_le_self _ (by omega)
    exact ⟨by omega, by omega, fun r c => rfl⟩

/-- C6 counterexample: a 4-wide, 7-tall source cropped by `center_crop_arr` to
size 4 starts its crop at row (7-4)//2 = 1 (the output's top-left pixel is
source row 1), whereas the claimed round((dim-size)/2) offset is
round(3/2) = 2 — so the still-image path does NOT use the rounded offset. -/
theorem c6_arr_offset_counterexample :
    (center_crop_arr dimResize dimResize
      { w := 4, h := 7, px := fun r _ => (r : ℤ) } 4).px 0 0 = 1 ∧
    pyround (((7 : ℤ) - (4 : ℤ) : ℤ) / 2 : ℚ) = 2 ∧
    ((7 : ℤ) - (4 : ℤ)).fdiv 2 = 1 := by
  refine ⟨?_, ?_, by decide⟩
  · simp only [center_crop_arr, halve_loop, cca_scaled, dimResize, pyround_eval]
    norm_num
    decide
  · rw [pyround_eval]
    norm_num

/-- A concrete 1x1x7x4 clip whose pixel value records its row index. -/
def testClip : VClip := { t := 1, c := 1, h := 7, w := 4, px := fun _ _ r _ => (r : ℤ) }

/-- Witness for C6, video path, on `testClip` with a (4, 4) crop. -/
theorem c6_center_crop_offsets_witness :
    4 ≤ testClip.h ∧ 4 ≤ testClip.w ∧
    (center_crop testClip (4, 4) =
        some (crop testClip (pyround (((testClip.h : ℤ) - ((4 : ℕ) : ℤ) : ℤ) / 2 : ℚ)).toNat
          (pyround (((testClip.w : ℤ) - ((4 : ℕ) : ℤ) : ℤ) / 2 : ℚ)).toNat 4 4) ∧
      (crop testClip (pyround (((testClip.h : ℤ) - ((4 : ℕ) : ℤ) : ℤ) / 2 : ℚ)).toNat
          (pyround (((testClip.w : ℤ) - ((4 : ℕ) : ℤ) : ℤ) / 2 : ℚ)).toNat 4 4).h = 4 ∧
      (crop testClip (pyround (((testClip.h : ℤ) - ((4 : ℕ) : ℤ) : ℤ) / 2 : ℚ)).toNat
          (pyround (((testClip.w : ℤ) - ((4 : ℕ) : ℤ) : ℤ) / 2 : ℚ)).toNat 4 4).w = 4) :=
  ⟨by decide, by decide, c6_center_crop_offsets.1 testClip 4 4 (by decide) (by decide)⟩

/-- C7 counterexample: `UCFCenterCropVideo` accepts the non-square target
(2, 4) without any error and silently returns a clip of non-square spatial
shape (2, 4) on a 4x16 input — the squareness check does not live there. -/
theorem c7_ucf_nonsquare_counterexample :
    (ucf_center_crop_video dimInterp (.pair (2, 4))
      { t := 1, c := 1, h := 4, w := 16, px := fun _ _ _ _ => 0 }).map (fun o => (o.h, o.w))
      = some (2, 4) ∧ (2 : ℕ) ≠ 4 := by
  constructor
  · simp only [ucf_center_crop_video, ucf_init, resize_scale, dimInterp, center_crop, crop,
      pyround_eval]
    norm_num
  · decide

/-- C7 (amended): the squareness requirement is enforced in
`get_transforms_video`'s "center" branch (which asserts a square image_size),
while `UCFCenterCropVideo` itself accepts any 2-tuple size and, when it
succeeds, returns exactly the requested — possibly non-square — extent. -/
theorem c7_square_check_location :
    (∀ sz : ℕ × ℕ, sz.1 ≠ sz.2 →
      get_transforms_video (some "center") sz =
        .error "image_size must be square for center crop") ∧
    (∀ sz : ℕ × ℕ, sz.1 = sz.2 →
      get_transforms_video (some "center") sz = .ok (some (.center sz.1))) ∧
    (∀ (interpolate : VClip → ℚ → VClip) (p : ℕ × ℕ) (clip out : VClip),
      ucf_center_crop_video interpolate (.pair p) clip = some out →
      out.h = p.1 ∧ out.w = p.2) := by
  refine ⟨?_, ?_, ?_⟩
  · intro sz hne
    simp only [get_transforms_video]
    rw [if_neg hne]
  · intro sz heq
    simp only [get_transforms_video]
    rw [if_pos heq]
  · intro interpolate p clip out hout
    obtain ⟨p1, p2⟩ := p
    unfold ucf_center_crop_video at hout
    dsimp only [ucf_init] at hout
    exact ⟨(center_crop_some _ p1 p2 out hout).2.2.1,
      (center_crop_some _ p1 p2 out hout).2.2.2.1⟩

/-- Witness for C7 at the non-square size (2, 4). -/
theorem c7_square_check_location_witness :
    ((2, 4) : ℕ × ℕ).1 ≠ ((2, 4) : ℕ × ℕ).2 ∧
    get_transforms_video (some "center") (2, 4) =
      .error "image_size must be square for center crop" :=
  ⟨by decide, c7_square_check_location.1 (2, 4) (by decide)⟩

/-- C9 counterexample: `save_sample` on a [C,T,H,W] = [1,2,1,1] tensor holding
[0, 0], with normalize=True and value_range=(-1, 1), leaves the CALLER's
buffer holding [1/2, 1/2] — the in-place `clamp_`/`sub_`/`div_` chain mutates
the input, contradicting "every stage returns a new buffer and leaves its
input unchanged". -/
theorem c9_save_sample_mutates_counterexample :
    (save_sample { c := 1, t := 2, h := 1, w := 1, data := [0, 0] } true (-1, 1) false).1.data
      = [1/2, 1/2] ∧ ([1/2, 1/2] : List ℚ) ≠ [0, 0] := by
  constructor
  · simp [save_sample, clampQ, minQ, maxQ]
    norm_num
  · intro h
    injection h with h1 h2
    norm_num at h1

/-- C9 (amended): `save_sample` leaves its input buffer unchanged when
normalize is off or in the single-frame image branch, but in the video branch
with normalize=True it rewrites the caller's buffer in place to
(clamp(v, low, high) - low) / max(high - low, 1e-5). -/
theorem c9_save_sample_state_spec :
    (∀ (x : STensor) (vr : ℚ × ℚ) (fv : Bool), (save_sample x false vr fv).1 = x) ∧
    (∀ (x : STensor) (n : Bool) (vr : ℚ × ℚ), x.t = 1 → (save_sample x n vr false).1 = x) ∧
    (∀ (x : STensor) (vr : ℚ × ℚ) (fv : Bool), ¬(¬fv = true ∧ x.t = 1) →
      (save_sample x true vr fv).1.data =
        x.data.map (fun v => (clampQ vr.1 vr.2 v - vr.1) / maxQ (vr.2 - vr.1) (1 / 100000))) := by
  refine ⟨?_, ?_, ?_⟩
  · intro x vr fv
    unfold save_sample
    dsimp only
    split_ifs with ha hb
    · rfl
    · exact hb.elim
    · rfl
  · intro x n vr ht
    unfold save_sample
    dsimp only
    rw [if_pos ⟨by simp, ht⟩]
  · intro x vr fv hni
    unfold save_sample
    dsimp only
    rw [if_neg hni]
    dsimp only
    rw [if_pos rfl]

/-- Witness for C9 in the normalized video branch. -/
theorem c9_save_sample_state_witness :
    ¬(¬false = true ∧ ({ c := 1, t := 2, h := 1, w := 1, data := [0, 0] } : STensor).t = 1) ∧
    (save_sample { c := 1, t := 2, h := 1, w := 1, data := [0, 0] } true (-1, 1) false).1.data
      = ([0, 0] : List ℚ).map
          (fun v => (clampQ ((-1 : ℚ), (1 : ℚ)).1 ((-1 : ℚ), (1 : ℚ)).2 v - ((-1 : ℚ), (1 : ℚ)).1)
            / maxQ (((-1 : ℚ), (1 : ℚ)).2 - ((-1 : ℚ), (1 : ℚ)).1) (1 / 100000)) :=
  ⟨by decide, c9_save_sample_state_spec.2.2
    { c := 1, t := 2, h := 1, w := 1, data := [0, 0] } (-1, 1) false (by decide)⟩

/-- C10: for info_type "STDiT2" or "OpenSora", `prepare_multi_resolution_info`
reports the constant IMG_FPS = 120 whenever num_frames ≤ 1, and the caller's
fps when num_frames > 1. -/
theorem c10_fps_selection (it : String) (bs : ℕ) (sz : ℕ × ℕ) (nf : ℕ) (fps : ℚ)
    (hit : it = "STDiT2" ∨ it = "OpenSora") :
    (nf ≤ 1 → prepare_multi_resolution_info (some it) bs sz nf fps =
      .ok (some (.stdit (List.replicate bs (sz.1 : ℚ)) (List.replicate bs (sz.2 : ℚ))
        (List.replicate bs (nf : ℚ)) (List.replicate bs ((sz.1 : ℚ) / (sz.2 : ℚ)))
        (List.replicate bs ((IMG_FPS : ℕ) : ℚ))))) ∧
    (1 < nf → prepare_multi_resolution_info (some it) bs sz nf fps =
      .ok (some (.stdit (List.replicate bs (sz.1 : ℚ)) (List.replicate bs (sz.2 : ℚ))
        (List.replicate bs (nf : ℚ)) (List.replicate bs ((sz.1 : ℚ) / (sz.2 : ℚ)))
        (List.replicate bs fps)))) := by
  rcases hit with rfl | rfl
  · constructor
    · intro hnf
      simp only [prepare_multi_resolution_info]
      rw [if_neg (by omega)]
    · intro hnf
      simp only [prepare_multi_resolution_info]
      rw [if_pos hnf]
  · constructor
    · intro hnf
      simp only [prepare_multi_resolution_info]
      rw [if_neg (by omega)]
    · intro hnf
      simp only [prepare_multi_resolution_info]
      rw [if_pos hnf]

/-- Witness for C10 at info_type "STDiT2", batch 2, num_frames 1, fps 24. -/
theorem c10_fps_selection_witness :
    ("STDiT2" = "STDiT2" ∨ "STDiT2" = "OpenSora") ∧ (1 : ℕ) ≤ 1 ∧
    prepare_multi_resolution_info (some "STDiT2") 2 (720, 1280) 1 24 =
      .ok (some (.stdit (List.replicate 2 ((((720, 1280) : ℕ × ℕ).1 : ℕ) : ℚ))
        (List.replicate 2 ((((720, 1280) : ℕ × ℕ).2 : ℕ) : ℚ))
        (List.replicate 2 ((1 : ℕ) : ℚ))
        (List.replicate 2 (((((720, 1280) : ℕ × ℕ).1 : ℕ) : ℚ) / ((((720, 1280) : ℕ × ℕ).2 : ℕ) : ℚ)))
        (List.replicate 2 ((IMG_FPS : ℕ) : ℚ)))) :=
  ⟨Or.inl rfl, by decide,
    (c10_fps_selection "STDiT2" 2 (720, 1280) 1 24 (Or.inl rfl)).1 (by decide)⟩
